import Mathlib

/-!
Verification of the ownership demo repository: a shallow embedding of the
`OwnedText` buffer type (Rust `String` in `src/main.rs`) together with the
move/tombstone discipline the specification describes for dynamically
checked targets, and of the demonstration functions `string_literals`,
`mutable_strings`, `take_ownership`, `give_ownership` and `main`.
-/

namespace Ownership

/-- A sequence of characters, the content of a buffer or one printed line. -/
abbrev Chars := List Char

/-- Lines printed to the console, in order. -/
abbrev Output := List Chars

/-- An owned, growable text buffer (Rust `String`; spec `OwnedText`):
an ordered character buffer together with a capacity. The length is the
length of the content. -/
structure OwnedText where
  content : Chars
  capacity : Nat
deriving Repr, DecidableEq

/-- The length of the stored content. -/
def OwnedText.length (t : OwnedText) : Nat := t.content.length

/-- Construction, `String::from` in `src/main.rs` line 32 (spec
`fromLiteral`): copy the given characters into fresh storage, with
length equal to the input length and capacity equal to the length. -/
def fromLiteral (s : Chars) : OwnedText :=
  { content := s, capacity := s.length }

/-- Mutation, `push_str` in `src/main.rs` line 35 (spec `append`): extend
the buffer in place with the suffix; when the capacity no longer suffices,
grow it to at least the new length (doubling policy). -/
def append (t : OwnedText) (suffix : Chars) : OwnedText :=
  let newLen := t.content.length + suffix.length
  { content := t.content ++ suffix
  , capacity := if newLen ≤ t.capacity then t.capacity else max newLen (2 * t.capacity) }

/-- Duplication, `clone` mentioned at `src/main.rs` line 51. Modelled from
the spec: `clone` itself is only named in a source comment; per the spec it
allocates new storage, copies the content over and leaves the original
untouched. -/
def clone (t : OwnedText) : OwnedText :=
  { content := t.content, capacity := t.content.length }

/-- The runtime error a dynamically checked target raises on any use of a
moved-from binding. Modelled from the spec: the Rust source rejects such
uses at compile time (the commented-out lines 46 and 82), and the spec's
design notes prescribe an `InvalidateAfterMove` error for dynamic targets. -/
inductive OwnError where
  | invalidAfterMove
deriving Repr, DecidableEq

/-- A binding for an `OwnedText`. Modelled from the spec: a handle carrying
a liveness flag; `some t` is a live binding holding `t`, `none` is a
moved-from (tombstoned) binding. -/
abbrev Slot := Option OwnedText

/-- Reading through a binding: succeeds on a live binding and raises
`invalidAfterMove` on a moved-from one. -/
def access : Slot → Except OwnError OwnedText
  | some t => Except.ok t
  | none => Except.error OwnError.invalidAfterMove

/-- Moving the value out of a binding: yields the value and the tombstoned
source binding, or raises `invalidAfterMove` when the binding was already
moved from. -/
def moveOut : Slot → Except OwnError (OwnedText × Slot)
  | some t => Except.ok (t, none)
  | none => Except.error OwnError.invalidAfterMove

/-- Transfer-assignment `target = source` (`let s1 = s` at `src/main.rs`
line 43): the target binding takes over the storage handle and the source
binding is tombstoned. Returns the pair (new target slot, new source
slot). -/
def transferAssign (source : Slot) : Except OwnError (Slot × Slot) :=
  match source with
  | some t => Except.ok (some t, none)
  | none => Except.error OwnError.invalidAfterMove

/-- The printing function `take_ownership` (`src/main.rs` lines 54-56):
consumes its argument and prints its content, returning nothing. The
returned value is the list of lines it prints. -/
def take_ownership (some_string : OwnedText) : Output :=
  [some_string.content]

/-- The pass-through function `give_ownership` (`src/main.rs` lines 58-61):
prints its argument's content and returns the argument itself, handing
ownership back to the caller. -/
def give_ownership (some_string : OwnedText) : Output × OwnedText :=
  ([some_string.content], some_string)

/-- Calling `take_ownership` on a binding, by ownership: the value is moved
out of the caller's binding, the function runs, and the caller is left with
the tombstoned binding and the printed output. -/
def callTakeOwnership (slot : Slot) : Except OwnError (Output × Slot) := do
  let (v, slot') ← moveOut slot
  pure (take_ownership v, slot')

/-- Calling `give_ownership` on a binding, by ownership: the value is moved
out of the caller's binding, the function runs, and its return value is
bound to a fresh live binding (`let s3 = give_ownership(s2)` at
`src/main.rs` line 87). Returns (printed output, old binding, new
binding). -/
def callGiveOwnership (slot : Slot) : Except OwnError (Output × Slot × Slot) := do
  let (v, slot') ← moveOut slot
  let (out, ret) := give_ownership v
  pure (out, slot', some ret)

/-- Cloning through a binding (`s.clone()`, `src/main.rs` line 51): reads
the value, leaves the original binding untouched, and creates a fresh
independent binding holding the copy. Returns (original slot, clone
slot). -/
def cloneSlot (slot : Slot) : Except OwnError (Slot × Slot) := do
  let v ← access slot
  pure (slot, some (clone v))

/-- Appending through a binding: reads the value and replaces it with the
extended buffer; moved-from bindings are rejected. -/
def appendSlot (slot : Slot) (suffix : Chars) : Except OwnError Slot := do
  let v ← access slot
  pure (some (append v suffix))

/-- The operations the specification enumerates on a single `OwnedText`
binding. -/
inductive Op where
  | appendOp (suffix : Chars)
  | transferOp
  | cloneOp
  | accessOp
  | releaseOp
deriving Repr, DecidableEq

/-- One operation applied to a binding, together with the lines it prints.
Construction aside, each of the enumerated operations passes through the
definitions above; none of the corresponding source operations prints
anything, so the trace component records what console output they produce
(their only possible observable effect beyond the binding itself). A
moved-from binding is inert: every operation leaves it moved-from. -/
def stepTraced (slot : Slot) : Op → Slot × Output
  | Op.appendOp suffix =>
    match appendSlot slot suffix with
    | Except.ok slot' => (slot', [])
    | Except.error _ => (slot, [])
  | Op.transferOp =>
    match transferAssign slot with
    | Except.ok (_, source') => (source', [])
    | Except.error _ => (slot, [])
  | Op.cloneOp =>
    match cloneSlot slot with
    | Except.ok (orig, _) => (orig, [])
    | Except.error _ => (slot, [])
  | Op.accessOp =>
    match access slot with
    | Except.ok _ => (slot, [])
    | Except.error _ => (slot, [])
  | Op.releaseOp => (none, [])

/-- One operation applied to a binding, ignoring the (empty) trace. -/
def step (slot : Slot) (op : Op) : Slot :=
  (stepTraced slot op).1

/-- Whether a binding is live (as opposed to moved-from/dropped). -/
def isLive (slot : Slot) : Bool := slot.isSome

/-- A two-binding store, for stating that operations on one binding never
touch the other (no global state). -/
def stepPair (pair : Slot × Slot) (op : Op) (first : Bool) :
    (Slot × Slot) × Output :=
  if first then
    (((stepTraced pair.1 op).1, pair.2), (stepTraced pair.1 op).2)
  else
    ((pair.1, (stepTraced pair.2 op).1), (stepTraced pair.2 op).2)

/-- The function `string_literals` (`src/main.rs` lines 4-25): prints the
inner-block literal, then the outer literal. Returns its printed lines. -/
def string_literals : Output :=
  let s := "hello".toList
  let innerOut :=
    let ns := "goodbye".toList
    [ns]
  innerOut ++ [s]

/-- The function `mutable_strings` (`src/main.rs` lines 27-52): builds
"hello string", appends ", from world!", prints it, moves it into `s1` and
prints `s1`. Returns its printed lines. -/
def mutable_strings : Output :=
  let s := fromLiteral "hello string".toList
  let s := append s ", from world!".toList
  let firstOut := [s.content]
  match transferAssign (some s) with
  | Except.ok (s1slot, _) =>
    match access s1slot with
    | Except.ok s1 => firstOut ++ [s1.content]
    | Except.error _ => firstOut
  | Except.error _ => firstOut

/-- The function `main` (`src/main.rs` lines 63-90): runs the two
demonstration functions, passes "banana" into `take_ownership`, passes
"apple" through `give_ownership` and prints the result. Returns the full
sequence of printed lines. -/
def mainOutput : Output :=
  let out0 := string_literals
  let out1 := mutable_strings
  let s1 := fromLiteral "banana".toList
  let out2 := take_ownership s1
  let s2 := fromLiteral "apple".toList
  let (out3, s3) := give_ownership s2
  out0 ++ out1 ++ out2 ++ out3 ++ [s3.content]

/-- A moved-from binding stays moved-from under any single operation. -/
theorem step_none (op : Op) : step none op = none := by
  cases op <;> rfl

/-- A moved-from binding stays moved-from under any sequence of
operations. -/
theorem foldl_step_none (ops : List Op) : ops.foldl step none = none := by
  induction ops with
  | nil => rfl
  | cons op ops ih => simpa [List.foldl, step_none] using ih

/-- No enumerated operation prints anything. -/
theorem stepTraced_no_output (slot : Slot) (op : Op) :
    (stepTraced slot op).2 = [] := by
  cases op <;> cases slot <;> rfl

/-- C1: after the transfer-assignment `target = source` on a live binding,
the target holds exactly the source's pre-transfer value, and every
subsequent access to the source binding raises `InvalidateAfterMove`. -/
theorem transfer_moves_content_invalidates_source (v : OwnedText) :
    ∃ target source',
      transferAssign (some v) = Except.ok (target, source') ∧
      access target = Except.ok v ∧
      ∀ ops : List Op,
        access (ops.foldl step source') = Except.error OwnError.invalidAfterMove := by
  refine ⟨some v, none, rfl, rfl, fun ops => ?_⟩
  rw [foldl_step_none]
  rfl

/-- C2: passing a live binding by ownership into `take_ownership`, which
prints its argument and does not return it, leaves the caller's binding
tombstoned, so every subsequent access raises `InvalidateAfterMove`; in
particular for a binding built from "banana". -/
theorem take_ownership_invalidates_caller (v : OwnedText) :
    callTakeOwnership (some v) = Except.ok ([v.content], (none : Slot)) ∧
    (∀ ops : List Op,
      access (ops.foldl step (none : Slot)) = Except.error OwnError.invalidAfterMove) ∧
    callTakeOwnership (some (fromLiteral "banana".toList)) =
      Except.ok (["banana".toList], (none : Slot)) := by
  refine ⟨rfl, fun ops => ?_, rfl⟩
  rw [foldl_step_none]
  rfl

/-- C3: passing a live binding by ownership into `give_ownership`, which
returns its argument unchanged, yields a returned binding holding exactly
the original value, on which access keeps succeeding; in particular
passing "apple" through yields content "apple". -/
theorem give_ownership_pass_through (v : OwnedText) :
    callGiveOwnership (some v) = Except.ok ([v.content], (none : Slot), some v) ∧
    access (some v) = Except.ok v ∧
    callGiveOwnership (some (fromLiteral "apple".toList)) =
      Except.ok (["apple".toList], (none : Slot), some (fromLiteral "apple".toList)) ∧
    (fromLiteral "apple".toList).content = "apple".toList := by
  exact ⟨rfl, rfl, rfl, rfl⟩

/-- C4: building an `OwnedText` from `s1` and appending `s2` yields content
`s1 ++ s2` and length `length s1 + length s2`. -/
theorem fromLiteral_append_content_length (s1 s2 : Chars) :
    (append (fromLiteral s1) s2).content = s1 ++ s2 ∧
    (append (fromLiteral s1) s2).length = s1.length + s2.length := by
  refine ⟨rfl, ?_⟩
  simp [append, fromLiteral, OwnedText.length]

/-- C5: appending ", from world!" to an `OwnedText` built from
"hello string" yields content "hello string, from world!" and length 25. -/
theorem hello_string_scenario :
    (append (fromLiteral "hello string".toList) ", from world!".toList).content
      = "hello string, from world!".toList ∧
    (append (fromLiteral "hello string".toList) ", from world!".toList).length
      = 25 := by
  decide

/-- C6: construction from a character sequence copies the characters in,
sets the length to the input length, and reserves capacity at least the
length. -/
theorem fromLiteral_length_capacity (s : Chars) :
    (fromLiteral s).content = s ∧
    (fromLiteral s).length = s.length ∧
    (fromLiteral s).length ≤ (fromLiteral s).capacity := by
  exact ⟨rfl, rfl, Nat.le_refl _⟩

/-- C7: cloning a binding built from `s` yields a second binding with
identical content while the original stays live and untouched, and the two
bindings are independent: appending through either one leaves the other
one's slot unchanged, the clone's content growing to `s ++ suffix` while
the original still reads `s`. -/
theorem clone_independent (s suffix : Chars) :
    ∃ orig copy,
      cloneSlot (some (fromLiteral s)) = Except.ok (orig, copy) ∧
      orig = some (fromLiteral s) ∧
      (∃ c, access copy = Except.ok c ∧ c.content = s) ∧
      (stepPair (orig, copy) (Op.appendOp suffix) false).1.1 = orig ∧
      (stepPair (orig, copy) (Op.appendOp suffix) true).1.2 = copy ∧
      (∃ c, access ((stepPair (orig, copy) (Op.appendOp suffix) false).1.2)
          = Except.ok c ∧ c.content = s ++ suffix) ∧
      (∃ o, access ((stepPair (orig, copy) (Op.appendOp suffix) true).1.1)
          = Except.ok o ∧ o.content = s ++ suffix) := by
  refine ⟨some (fromLiteral s), some (clone (fromLiteral s)), rfl, rfl,
    ⟨clone (fromLiteral s), rfl, rfl⟩, rfl, rfl,
    ⟨append (clone (fromLiteral s)) suffix, rfl, rfl⟩,
    ⟨append (fromLiteral s) suffix, rfl, rfl⟩⟩

/-- C8: a binding is in exactly one of two states, live or
moved-from/dropped; an operation only ever transitions live to
moved-from, and no sequence of operations makes a moved-from binding live
again. -/
theorem two_states_one_way (slot : Slot) (op : Op) (ops : List Op) :
    (isLive slot = true ∨ isLive slot = false) ∧
    (isLive (step slot op) = true → isLive slot = true) ∧
    (isLive slot = false → isLive (ops.foldl step slot) = false) := by
  refine ⟨?_, ?_, ?_⟩
  · cases slot
    · exact Or.inr rfl
    · exact Or.inl rfl
  · intro h
    cases slot
    · rw [step_none] at h
      exact h
    · rfl
  · intro h
    cases slot
    · rw [foldl_step_none]
      rfl
    · exact absurd h (by simp [isLive])

/-- C8 witness: a concrete moved-from binding stays moved-from after a
clone attempt. -/
theorem two_states_one_way_witness :
    isLive ([Op.cloneOp].foldl step (none : Slot)) = false :=
  (two_states_one_way none Op.cloneOp [Op.cloneOp]).2.2 rfl

/-- C9: no enumerated operation on a binding prints anything, and an
operation applied to one binding of a store leaves every other binding
unchanged: the only observable effect is on the operated-on binding
itself. -/
theorem ops_no_side_effects (slot : Slot) (op : Op) (pair : Slot × Slot) :
    (stepTraced slot op).2 = [] ∧
    (stepPair pair op true).2 = [] ∧
    (stepPair pair op false).2 = [] ∧
    (stepPair pair op true).1.2 = pair.2 ∧
    (stepPair pair op false).1.1 = pair.1 := by
  refine ⟨stepTraced_no_output slot op, stepTraced_no_output pair.1 op,
    stepTraced_no_output pair.2 op, rfl, rfl⟩

/-- C10: the program deterministically prints exactly these seven lines in
this order: "goodbye", "hello", "hello string, from world!",
"hello string, from world!", "banana", "apple", "apple". -/
theorem main_output_value :
    mainOutput = ["goodbye".toList, "hello".toList,
      "hello string, from world!".toList, "hello string, from world!".toList,
      "banana".toList, "apple".toList, "apple".toList] := by
  decide

end Ownership
